import Mathlib

/-!
Verification of the ROI calculation engine of the TREU-ROI-Calculator
repository.

Two Python files hold the engine:

* `it_broker_roi_calculator_enhanced.py` — the percentage model:
  `calculate_metrics` (lines 51-71) and the multi-year projection
  `cumulative_benefits` (lines 88-89).
* `it_broker_roi_calculator_enhanced_style_domains_fixed.py` — the
  category / NPV model: the category rate table `CATEGORY_PARAMS`
  (lines 29-38), the per-category benefit computation (lines 67-73),
  and the discounted-scenario metrics (lines 89-96).

Embedding conventions: Python numbers are modelled as rationals (`ℚ`);
the `np.nan` sentinel used by `calculate_metrics` is `Option.none`;
Python code that raises (`x / 0.0` raises `ZeroDivisionError`, a dict
subscript with an absent key raises `KeyError`) is modelled with
`Except`, the error value carrying the exception's payload.
-/

namespace TreuRoi

/-- Result record of `calculate_metrics` (the dict returned at lines 61-71
of `it_broker_roi_calculator_enhanced.py`).  `financial_roi` and
`total_roi` are `Option ℚ`: `none` models `np.nan`. -/
structure MetricsRecord where
  gross_savings : ℚ
  fee_cost : ℚ
  net_savings : ℚ
  hours_saved : ℚ
  time_value : ℚ
  opp_value : ℚ
  total_benefit : ℚ
  financial_roi : Option ℚ
  total_roi : Option ℚ
deriving Repr, DecidableEq

/-- `calculate_metrics` of `it_broker_roi_calculator_enhanced.py`,
lines 51-71.  A Python float is falsy exactly when it is zero, so
`x if fee_cost else np.nan` becomes `if fee_cost = 0 then none else some x`. -/
def calculate_metrics (spend savings_pct fee_pct hours time_saved_pct cost_hr opp_hr : ℚ) :
    MetricsRecord :=
  let gross_savings := spend * savings_pct / 100
  let fee_cost := spend * fee_pct / 100
  let net_savings := gross_savings - fee_cost
  let hours_saved := hours * time_saved_pct / 100
  let time_value := hours_saved * cost_hr
  let opp_value := hours_saved * opp_hr
  let total_benefit := net_savings + time_value + opp_value
  let financial_roi := if fee_cost = 0 then none else some (net_savings / fee_cost)
  let total_roi := if fee_cost = 0 then none else some (total_benefit / fee_cost)
  ⟨gross_savings, fee_cost, net_savings, hours_saved, time_value, opp_value,
    total_benefit, financial_roi, total_roi⟩

/-- The multi-year projection of `it_broker_roi_calculator_enhanced.py`,
lines 88-89: `years = list(range(1, forecast_years + 1))` and
`cumulative_benefits = [broker["Total Benefit ($)"] * y for y in years]`. -/
def cumulative_benefits (m : MetricsRecord) (forecast_years : ℕ) : List ℚ :=
  (List.range' 1 forecast_years).map (fun (y : ℕ) => m.total_benefit * (y : ℚ))

/-! Constants of `it_broker_roi_calculator_enhanced_style_domains_fixed.py`,
lines 12-18. -/

def YEARS : ℕ := 3
def DISCOUNT_RATE : ℚ := 0.10
def PRODUCTIVITY_GAIN_PCT : ℚ := 15
def SALARY_PER_EMPLOYEE : ℚ := 80000
def NUM_EMPLOYEES : ℚ := 50
def BROKER_FEE_PCT : ℚ := 5
def OPP_COST_RATE : ℚ := 0.20

/-- The category rate table `CATEGORY_PARAMS`, lines 29-38: each key maps
to its `(license_rate, implementation_rate)` pair. -/
def CATEGORY_PARAMS : List (String × ℚ × ℚ) :=
  [("Software Licensing", 0.50, 0.30),
   ("SaaS Subscriptions", 0.45, 0.25),
   ("Cloud Services", 0.40, 0.20),
   ("Telecom Services", 0.35, 0.15),
   ("Hardware Maintenance", 0.30, 0.10),
   ("Mobility & IoT", 0.40, 0.20),
   ("Security", 0.55, 0.35),
   ("ITAM/ITSM", 0.45, 0.25)]

/-- Dictionary lookup `CATEGORY_PARAMS[category]` (line 67): `some` of the
rate pair when the key is present, `none` when absent (Python raises
`KeyError` in that case). -/
def lookupCategory (category : String) : Option (ℚ × ℚ) :=
  (CATEGORY_PARAMS.find? (fun p => p.1 == category)).map (fun p => p.2)

/-- The per-category savings breakdown computed at lines 70-73. -/
structure CategoryBenefit where
  license_savings : ℚ
  implementation_savings : ℚ
  productivity_savings : ℚ
  annual_benefit : ℚ
deriving Repr, DecidableEq

/-- Lines 67-73 of `it_broker_roi_calculator_enhanced_style_domains_fixed.py`:
rate lookup followed by the savings formulas.  The `KeyError(category)`
raised by `CATEGORY_PARAMS[category]` on an absent key is modelled as
`Except.error category`. -/
def computeCategoryBenefit (category : String) (annual_spend : ℚ) :
    Except String CategoryBenefit :=
  match lookupCategory category with
  | none => Except.error category
  | some (license_rate, impl_rate) =>
    let license_savings := annual_spend * license_rate
    let implementation_savings := annual_spend * impl_rate
    let productivity_savings := PRODUCTIVITY_GAIN_PCT / 100 * SALARY_PER_EMPLOYEE * NUM_EMPLOYEES
    Except.ok ⟨license_savings, implementation_savings, productivity_savings,
      license_savings + implementation_savings + productivity_savings⟩

/-- The generator `sum(cf/((1+DISCOUNT_RATE)**i) for i,cf in enumerate(cf_out,1))`
(line 91), with the enumeration index `i` made explicit. -/
def npvAux (r : ℚ) (i : ℕ) : List ℚ → ℚ
  | [] => 0
  | cf :: rest => cf / (1 + r) ^ i + npvAux r (i + 1) rest

/-- NPV of a cash-flow series: discounting starts at period 1
(`enumerate(cf, 1)` at line 91). -/
def npv (r : ℚ) (cfs : List ℚ) : ℚ := npvAux r 1 cfs

/-- Line 93: `roi_out = (sum(cf_out) - subscription_cost) / subscription_cost * 100`.
A Python float division by zero raises `ZeroDivisionError`, modelled as
the `Except.error` case. -/
def roiPct (cfs : List ℚ) (cost : ℚ) : Except String ℚ :=
  if cost = 0 then Except.error "ZeroDivisionError"
  else Except.ok ((cfs.sum - cost) / cost * 100)

/-- The generator of line 95,
`next((i for i,cum in enumerate(np.cumsum(cf_out),1) if cum>subscription_cost), None)`,
unrolled: `acc` is the running cumulative sum, `i` the 1-based index. -/
def paybackAux (cost : ℚ) (acc : ℚ) (i : ℕ) : List ℚ → Option ℕ
  | [] => none
  | cf :: rest => if cost < acc + cf then some i else paybackAux cost (acc + cf) (i + 1) rest

/-- Payback period: the first 1-indexed year whose cumulative cash flow
strictly exceeds `cost`, else `none` ("beyond horizon"). -/
def payback (cfs : List ℚ) (cost : ℚ) : Option ℕ := paybackAux cost 0 1 cfs

/-- Cumulative cash flow through year `t` (1-indexed): the sum of the
first `t` entries. -/
def cumAt (cfs : List ℚ) (t : ℕ) : ℚ := (cfs.take t).sum

/-- The discounted-scenario metrics computed at lines 89-96: cash-flow
series, NPV, ROI%, payback period. -/
structure DiscountedMetrics where
  cashFlows : List ℚ
  npvValue : ℚ
  roiValue : Except String ℚ
  paybackYears : Option ℕ
deriving Repr

/-- The spec's `computeDiscountedScenario`: the inline scenario
computation of lines 89-96 abstracted over its inputs.  The flat series
`[net] * n` comes from `cf_out = [net_out] * YEARS` (line 89) with the
per-year net benefit `net = annualBenefit - cost`; NPV, ROI% and payback
follow lines 91, 93 and 95. -/
def computeDiscountedScenario (annualBenefit cost r : ℚ) (n : ℕ) : DiscountedMetrics :=
  let net := annualBenefit - cost
  let cfs := List.replicate n net
  ⟨cfs, npv r cfs, roiPct cfs cost, payback cfs cost⟩

/-! ### Claims about `calculate_metrics` and the multi-year projection -/

/-- C1: every record returned by `calculate_metrics` satisfies the seven
stated field equations, and the concrete scenario
(spend 1,000,000, savings 30%, fee 10%, 500 hours, 50% time saved,
150 $/h, 250 $/h) yields gross savings 300,000, fee cost 100,000,
net savings 200,000, 250 hours saved, time value 37,500, opportunity
value 62,500, total benefit 300,000, financial ROI 2.0, total ROI 3.0. -/
theorem calculate_metrics_spec :
    (∀ spend savings_pct fee_pct hours time_saved_pct cost_hr opp_hr : ℚ,
      (calculate_metrics spend savings_pct fee_pct hours time_saved_pct cost_hr opp_hr).gross_savings
          = spend * savings_pct / 100 ∧
      (calculate_metrics spend savings_pct fee_pct hours time_saved_pct cost_hr opp_hr).fee_cost
          = spend * fee_pct / 100 ∧
      (calculate_metrics spend savings_pct fee_pct hours time_saved_pct cost_hr opp_hr).net_savings
          = (calculate_metrics spend savings_pct fee_pct hours time_saved_pct cost_hr opp_hr).gross_savings
            - (calculate_metrics spend savings_pct fee_pct hours time_saved_pct cost_hr opp_hr).fee_cost ∧
      (calculate_metrics spend savings_pct fee_pct hours time_saved_pct cost_hr opp_hr).hours_saved
          = hours * time_saved_pct / 100 ∧
      (calculate_metrics spend savings_pct fee_pct hours time_saved_pct cost_hr opp_hr).time_value
          = (calculate_metrics spend savings_pct fee_pct hours time_saved_pct cost_hr opp_hr).hours_saved * cost_hr ∧
      (calculate_metrics spend savings_pct fee_pct hours time_saved_pct cost_hr opp_hr).opp_value
          = (calculate_metrics spend savings_pct fee_pct hours time_saved_pct cost_hr opp_hr).hours_saved * opp_hr ∧
      (calculate_metrics spend savings_pct fee_pct hours time_saved_pct cost_hr opp_hr).total_benefit
          = (calculate_metrics spend savings_pct fee_pct hours time_saved_pct cost_hr opp_hr).net_savings
            + (calculate_metrics spend savings_pct fee_pct hours time_saved_pct cost_hr opp_hr).time_value
            + (calculate_metrics spend savings_pct fee_pct hours time_saved_pct cost_hr opp_hr).opp_value) ∧
    calculate_metrics 1000000 30 10 500 50 150 250 =
      ⟨300000, 100000, 200000, 250, 37500, 62500, 300000, some 2, some 3⟩ := by
  constructor
  · intro spend savings_pct fee_pct hours time_saved_pct cost_hr opp_hr
    exact ⟨rfl, rfl, rfl, rfl, rfl, rfl, rfl⟩
  · simp only [calculate_metrics]
    norm_num

/-- C6: whenever the fee cost `spend * fee_pct / 100` is zero (in
particular whenever `fee_pct = 0`), both ROI fields are the
not-a-number sentinel (`none`), and the record is still returned. -/
theorem calculate_metrics_zero_fee (spend savings_pct fee_pct hours time_saved_pct cost_hr opp_hr : ℚ)
    (h : spend * fee_pct / 100 = 0) :
    (calculate_metrics spend savings_pct fee_pct hours time_saved_pct cost_hr opp_hr).financial_roi = none ∧
    (calculate_metrics spend savings_pct fee_pct hours time_saved_pct cost_hr opp_hr).total_roi = none := by
  simp only [calculate_metrics, h]
  norm_num

/-- Witness for C6 at `fee_pct = 0`. -/
theorem calculate_metrics_zero_fee_witness :
    (calculate_metrics 1000000 30 0 500 50 150 250).financial_roi = none ∧
    (calculate_metrics 1000000 30 0 500 50 150 250).total_roi = none :=
  calculate_metrics_zero_fee 1000000 30 0 500 50 150 250 (by norm_num)

/-- Counterexample to C8: at spend = -1,000,000 (a negative spend) the
engine does not reject; it returns the metrics record computed from the
negative value (gross savings -300,000, net savings -200,000, total
benefit -100,000). -/
theorem calculate_metrics_negative_passes :
    (calculate_metrics (-1000000) 30 10 500 50 150 250).gross_savings = -300000 ∧
    (calculate_metrics (-1000000) 30 10 500 50 150 250).net_savings = -200000 ∧
    (calculate_metrics (-1000000) 30 10 500 50 150 250).total_benefit = -100000 := by
  simp only [calculate_metrics]
  norm_num

/-- C8 (amended): the engine performs no input validation — for negative
spend or negative hours it still returns the metrics record given by the
same arithmetic formulas applied to the negative values. -/
theorem calculate_metrics_no_validation (spend savings_pct fee_pct hours time_saved_pct cost_hr opp_hr : ℚ)
    (h : spend < 0 ∨ hours < 0) :
    (calculate_metrics spend savings_pct fee_pct hours time_saved_pct cost_hr opp_hr).gross_savings
        = spend * savings_pct / 100 ∧
    (calculate_metrics spend savings_pct fee_pct hours time_saved_pct cost_hr opp_hr).hours_saved
        = hours * time_saved_pct / 100 ∧
    (calculate_metrics spend savings_pct fee_pct hours time_saved_pct cost_hr opp_hr).total_benefit
        = (spend * savings_pct / 100 - spend * fee_pct / 100)
          + hours * time_saved_pct / 100 * cost_hr + hours * time_saved_pct / 100 * opp_hr :=
  ⟨rfl, rfl, rfl⟩

/-- Witness for the amended C8 at spend = -1,000,000. -/
theorem calculate_metrics_no_validation_witness :
    (calculate_metrics (-1000000) 30 10 500 50 150 250).gross_savings = (-1000000 : ℚ) * 30 / 100 ∧
    (calculate_metrics (-1000000) 30 10 500 50 150 250).hours_saved = (500 : ℚ) * 50 / 100 ∧
    (calculate_metrics (-1000000) 30 10 500 50 150 250).total_benefit
        = ((-1000000 : ℚ) * 30 / 100 - (-1000000 : ℚ) * 10 / 100)
          + (500 : ℚ) * 50 / 100 * 150 + (500 : ℚ) * 50 / 100 * 250 :=
  calculate_metrics_no_validation (-1000000) 30 10 500 50 150 250 (Or.inl (by norm_num))

/-- C10: the multi-year projection applies no discounting and no
year-over-year variation — for horizon `n ≥ 1` the series has length
exactly `n` and its `y`-th entry (1-indexed) is `y` times the
single-year total benefit. -/
theorem cumulative_benefits_spec (m : MetricsRecord) (n : ℕ) (hn : 1 ≤ n) :
    (cumulative_benefits m n).length = n ∧
    ∀ y, 1 ≤ y → y ≤ n →
      (cumulative_benefits m n)[y - 1]? = some ((y : ℚ) * m.total_benefit) := by
  constructor
  · rw [cumulative_benefits, List.length_map, List.length_range']
  · intro y h1 h2
    have hy : y - 1 < n := by omega
    have hr := List.getElem?_range' 1 1 hy
    have hy1 : 1 + 1 * (y - 1) = y := by omega
    rw [hy1] at hr
    rw [cumulative_benefits, List.getElem?_map, hr]
    simp [mul_comm]

/-- Witness for C10 at the broker record of the concrete scenario and a
3-year horizon. -/
theorem cumulative_benefits_witness :
    (cumulative_benefits ⟨300000, 100000, 200000, 250, 37500, 62500, 300000, some 2, some 3⟩ 3).length = 3 ∧
    (cumulative_benefits ⟨300000, 100000, 200000, 250, 37500, 62500, 300000, some 2, some 3⟩ 3)[1]? =
      some ((2 : ℚ) * 300000) := by
  have h := cumulative_benefits_spec
    ⟨300000, 100000, 200000, 250, 37500, 62500, 300000, some 2, some 3⟩ 3 (by norm_num)
  exact ⟨h.1, h.2 2 (by norm_num) (by norm_num)⟩

/-! ### NPV of the flat cash-flow series -/

lemma npvAux_replicate (r b : ℚ) (n i : ℕ) :
    npvAux r i (List.replicate n b) = ∑ t ∈ Finset.range n, b / (1 + r) ^ (i + t) := by
  induction n generalizing i with
  | zero => simp [npvAux]
  | succ m ih =>
    rw [List.replicate_succ]
    show b / (1 + r) ^ i + npvAux r (i + 1) (List.replicate m b) = _
    rw [ih (i + 1), Finset.sum_range_succ', add_comm]
    congr 1
    exact Finset.sum_congr rfl (fun t _ => by rw [show i + (t + 1) = i + 1 + t by omega])

lemma npvAux_zero_rate (cfs : List ℚ) : ∀ i : ℕ, npvAux 0 i cfs = cfs.sum := by
  induction cfs with
  | nil => intro i; simp [npvAux]
  | cons c rest ih => intro i; simp [npvAux, ih]

/-- C2: for non-negative inputs and horizon at least 1, the discounted
scenario's cash-flow series has length exactly `horizonYears`, every
entry equals the constant per-year net benefit `annualBenefit - cost`,
the NPV is the sum over periods 1..horizonYears of
`cashFlow / (1 + discountRate) ^ t`, and at discount rate 0 the NPV is
the undiscounted sum of the series. -/
theorem computeDiscountedScenario_spec (annualBenefit cost r : ℚ) (n : ℕ)
    (hab : 0 ≤ annualBenefit) (hcost : 0 ≤ cost) (hr : 0 ≤ r) (hn : 1 ≤ n) :
    (computeDiscountedScenario annualBenefit cost r n).cashFlows.length = n ∧
    (∀ x ∈ (computeDiscountedScenario annualBenefit cost r n).cashFlows, x = annualBenefit - cost) ∧
    (computeDiscountedScenario annualBenefit cost r n).npvValue =
      ∑ t ∈ Finset.range n, (annualBenefit - cost) / (1 + r) ^ (t + 1) ∧
    (r = 0 → (computeDiscountedScenario annualBenefit cost r n).npvValue =
      (computeDiscountedScenario annualBenefit cost r n).cashFlows.sum) := by
  refine ⟨List.length_replicate n _, ?_, ?_, ?_⟩
  · intro x hx
    exact List.eq_of_mem_replicate hx
  · show npv r (List.replicate n (annualBenefit - cost)) = _
    rw [npv, npvAux_replicate]
    exact Finset.sum_congr rfl (fun t _ => by rw [show 1 + t = t + 1 by omega])
  · intro hr0
    subst hr0
    show npv 0 (List.replicate n (annualBenefit - cost)) = _
    rw [npv, npvAux_zero_rate]
    rfl

/-- Witness for C2 at benefit 660,000, cost 100,000, discount rate 0,
horizon 3. -/
theorem computeDiscountedScenario_spec_witness :
    (computeDiscountedScenario 660000 100000 0 3).cashFlows.length = 3 ∧
    (computeDiscountedScenario 660000 100000 0 3).npvValue =
      (computeDiscountedScenario 660000 100000 0 3).cashFlows.sum := by
  have h := computeDiscountedScenario_spec 660000 100000 0 3
    (by norm_num) (by norm_num) (by norm_num) (by norm_num)
  exact ⟨h.1, h.2.2.2 rfl⟩

/-! ### Payback-period characterization -/

lemma paybackAux_eq_some_iff (cost : ℚ) :
    ∀ (cfs : List ℚ) (acc : ℚ) (i t : ℕ),
      paybackAux cost acc i cfs = some t ↔
        ∃ k, k < cfs.length ∧ t = i + k ∧ cost < acc + (cfs.take (k + 1)).sum ∧
          ∀ j, j < k → acc + (cfs.take (j + 1)).sum ≤ cost := by
  intro cfs
  induction cfs with
  | nil =>
    intro acc i t
    simp [paybackAux]
  | cons c rest ih =>
    intro acc i t
    by_cases hc : cost < acc + c
    · rw [show paybackAux cost acc i (c :: rest) = some i from by simp [paybackAux, hc]]
      constructor
      · intro h
        have hit : i = t := Option.some.inj h
        subst hit
        exact ⟨0, by simp, by simp, by simpa using hc, by omega⟩
      · rintro ⟨k, hk, ht, hlt, hmin⟩
        rcases Nat.eq_zero_or_pos k with rfl | hkpos
        · simp [ht]
        · have h0 := hmin 0 hkpos
          simp at h0
          exact absurd hc (not_lt.mpr h0)
    · rw [show paybackAux cost acc i (c :: rest) = paybackAux cost (acc + c) (i + 1) rest from by
        simp [paybackAux, hc]]
      rw [ih (acc + c) (i + 1) t]
      constructor
      · rintro ⟨k, hk, ht, hlt, hmin⟩
        refine ⟨k + 1, by simpa using Nat.succ_lt_succ hk, by omega, ?_, ?_⟩
        · rw [List.take_succ_cons, List.sum_cons, ← add_assoc]
          exact hlt
        · intro j hj
          rcases Nat.eq_zero_or_pos j with rfl | hjpos
          · simpa using not_lt.mp hc
          · obtain ⟨j', rfl⟩ : ∃ j', j = j' + 1 := ⟨j - 1, by omega⟩
            have hmj := hmin j' (by omega)
            rw [List.take_succ_cons, List.sum_cons, ← add_assoc]
            exact hmj
      · rintro ⟨k, hk, ht, hlt, hmin⟩
        rcases Nat.eq_zero_or_pos k with rfl | hkpos
        · exact absurd (by simpa using hlt) hc
        · obtain ⟨k', rfl⟩ : ∃ k', k = k' + 1 := ⟨k - 1, by omega⟩
          refine ⟨k', by simpa using hk, by omega, ?_, ?_⟩
          · have hl := hlt
            rwa [List.take_succ_cons, List.sum_cons, ← add_assoc] at hl
          · intro j' hj'
            have hmj := hmin (j' + 1) (by omega)
            rwa [List.take_succ_cons, List.sum_cons, ← add_assoc] at hmj

lemma paybackAux_eq_none_iff (cost : ℚ) :
    ∀ (cfs : List ℚ) (acc : ℚ) (i : ℕ),
      paybackAux cost acc i cfs = none ↔
        ∀ k, k < cfs.length → acc + (cfs.take (k + 1)).sum ≤ cost := by
  intro cfs
  induction cfs with
  | nil =>
    intro acc i
    simp [paybackAux]
  | cons c rest ih =>
    intro acc i
    by_cases hc : cost < acc + c
    · rw [show paybackAux cost acc i (c :: rest) = some i from by simp [paybackAux, hc]]
      constructor
      · intro h
        exact absurd h (by simp)
      · intro h
        have h0 := h 0 (by simp)
        simp at h0
        exact absurd hc (not_lt.mpr h0)
    · rw [show paybackAux cost acc i (c :: rest) = paybackAux cost (acc + c) (i + 1) rest from by
        simp [paybackAux, hc]]
      rw [ih (acc + c) (i + 1)]
      constructor
      · intro h k hk
        rcases Nat.eq_zero_or_pos k with rfl | hkpos
        · simpa using not_lt.mp hc
        · obtain ⟨k', rfl⟩ : ∃ k', k = k' + 1 := ⟨k - 1, by omega⟩
          rw [List.take_succ_cons, List.sum_cons, ← add_assoc]
          exact h k' (by simpa using hk)
      · intro h k' hk'
        have hk := h (k' + 1) (by simpa using Nat.succ_lt_succ hk')
        rwa [List.take_succ_cons, List.sum_cons, ← add_assoc] at hk

lemma payback_eq_some_iff (cfs : List ℚ) (cost : ℚ) (t : ℕ) :
    payback cfs cost = some t ↔
      1 ≤ t ∧ t ≤ cfs.length ∧ cost < cumAt cfs t ∧
        ∀ s, s < t → 1 ≤ s → cumAt cfs s ≤ cost := by
  rw [payback, paybackAux_eq_some_iff]
  constructor
  · rintro ⟨k, hk, rfl, hlt, hmin⟩
    refine ⟨by omega, by omega, ?_, ?_⟩
    · simpa [cumAt, show 1 + k = k + 1 by omega] using hlt
    · intro s hs hs1
      obtain ⟨j, rfl⟩ : ∃ j, s = j + 1 := ⟨s - 1, by omega⟩
      have hmj := hmin j (by omega)
      simpa [cumAt] using hmj
  · rintro ⟨h1, h2, hlt, hmin⟩
    refine ⟨t - 1, by omega, by omega, ?_, ?_⟩
    · rw [show t - 1 + 1 = t by omega]
      simpa [cumAt] using hlt
    · intro j hj
      have hmj := hmin (j + 1) (by omega) (by omega)
      simpa [cumAt] using hmj

lemma payback_eq_none_iff (cfs : List ℚ) (cost : ℚ) :
    payback cfs cost = none ↔ ∀ t, 1 ≤ t → t ≤ cfs.length → cumAt cfs t ≤ cost := by
  rw [payback, paybackAux_eq_none_iff]
  constructor
  · intro h t h1 h2
    obtain ⟨k, rfl⟩ : ∃ k, t = k + 1 := ⟨t - 1, by omega⟩
    simpa [cumAt] using h k (by omega)
  · intro h k hk
    simpa [cumAt] using h (k + 1) (by omega) (by omega)

/-- C3: the reported payback period is the smallest 1-indexed year whose
running cumulative cash flow strictly exceeds `cost`; when no year in
the horizon qualifies the result is the `none` sentinel ("beyond
horizon"), not an error. -/
theorem payback_correct (cfs : List ℚ) (cost : ℚ) :
    (∀ t, payback cfs cost = some t ↔
      1 ≤ t ∧ t ≤ cfs.length ∧ cost < cumAt cfs t ∧
        ∀ s, s < t → 1 ≤ s → cumAt cfs s ≤ cost) ∧
    (payback cfs cost = none ↔ ∀ t, 1 ≤ t → t ≤ cfs.length → cumAt cfs t ≤ cost) :=
  ⟨fun t => payback_eq_some_iff cfs cost t, payback_eq_none_iff cfs cost⟩

/-- Witness for C3: on the series [100, 100, 100] with cost 250 the
payback is year 3, and the cumulative flow at year 3 indeed exceeds 250. -/
theorem payback_correct_witness :
    payback [(100 : ℚ), 100, 100] 250 = some 3 ∧ 250 < cumAt [(100 : ℚ), 100, 100] 3 := by
  have h := payback_correct [(100 : ℚ), 100, 100] 250
  have h3 : payback [(100 : ℚ), 100, 100] 250 = some 3 := by
    simp only [payback, paybackAux]
    norm_num
  exact ⟨h3, ((h.1 3).mp h3).2.2.1⟩

/-- C9: payback is monotone in `cost` — for a fixed cash-flow series,
raising the cost never lowers the reported payback year; a result can
flip from a year to the beyond-horizon sentinel but never back. -/
theorem payback_monotone (cfs : List ℚ) (c1 c2 : ℚ) (h : c1 ≤ c2) :
    (payback cfs c1 = none → payback cfs c2 = none) ∧
    (∀ t2, payback cfs c2 = some t2 → ∃ t1, t1 ≤ t2 ∧ payback cfs c1 = some t1) := by
  constructor
  · intro h1
    rw [payback_eq_none_iff] at h1 ⊢
    intro t ht1 ht2
    exact le_trans (h1 t ht1 ht2) h
  · intro t2 ht2
    rw [payback_eq_some_iff] at ht2
    obtain ⟨h1t, h2t, hlt, hmin⟩ := ht2
    have hex : ∃ t, 1 ≤ t ∧ t ≤ cfs.length ∧ c1 < cumAt cfs t :=
      ⟨t2, h1t, h2t, lt_of_le_of_lt h hlt⟩
    have ht1le : Nat.find hex ≤ t2 := Nat.find_min' hex ⟨h1t, h2t, lt_of_le_of_lt h hlt⟩
    have hspec := Nat.find_spec hex
    refine ⟨Nat.find hex, ht1le, ?_⟩
    rw [payback_eq_some_iff]
    refine ⟨hspec.1, hspec.2.1, hspec.2.2, ?_⟩
    intro s hs hs1
    have hnot := Nat.find_min hex hs
    by_contra hcon
    exact hnot ⟨hs1, by omega, not_le.mp hcon⟩

/-- Witness for C9: on [100, 100, 100] with costs 400 ≤ 500, the payback
at cost 400 is beyond the horizon, hence so is the payback at cost 500. -/
theorem payback_monotone_witness :
    (400 : ℚ) ≤ 500 ∧ payback [(100 : ℚ), 100, 100] 500 = none := by
  have h := payback_monotone [(100 : ℚ), 100, 100] 400 500 (by norm_num)
  refine ⟨by norm_num, h.1 ?_⟩
  simp only [payback, paybackAux]
  norm_num

/-! ### Category benefit and ROI% -/

/-- C4: for every category present in the rate table and non-negative
spend, the annual benefit is
`spend * licenseRate + spend * implementationRate +
(productivityGainPct / 100) * salaryPerEmployee * numEmployees`;
for "Cloud Services" at spend 100,000 the breakdown is
40,000 / 20,000 / 600,000 with annual benefit 660,000. -/
theorem computeCategoryBenefit_spec :
    (∀ (category : String) (annual_spend license_rate impl_rate : ℚ),
      lookupCategory category = some (license_rate, impl_rate) → 0 ≤ annual_spend →
      computeCategoryBenefit category annual_spend = Except.ok
        ⟨annual_spend * license_rate, annual_spend * impl_rate,
         PRODUCTIVITY_GAIN_PCT / 100 * SALARY_PER_EMPLOYEE * NUM_EMPLOYEES,
         annual_spend * license_rate + annual_spend * impl_rate +
           PRODUCTIVITY_GAIN_PCT / 100 * SALARY_PER_EMPLOYEE * NUM_EMPLOYEES⟩) ∧
    computeCategoryBenefit "Cloud Services" 100000 =
      Except.ok ⟨40000, 20000, 600000, 660000⟩ := by
  constructor
  · intro category annual_spend license_rate impl_rate hl hs
    simp only [computeCategoryBenefit, hl]
  · simp [computeCategoryBenefit, lookupCategory, CATEGORY_PARAMS, List.find?,
      PRODUCTIVITY_GAIN_PCT, SALARY_PER_EMPLOYEE, NUM_EMPLOYEES]
    norm_num

/-- Witness for C4 at "Telecom Services" and spend 50,000. -/
theorem computeCategoryBenefit_spec_witness :
    computeCategoryBenefit "Telecom Services" 50000 = Except.ok
      ⟨50000 * 0.35, 50000 * 0.15,
       PRODUCTIVITY_GAIN_PCT / 100 * SALARY_PER_EMPLOYEE * NUM_EMPLOYEES,
       50000 * 0.35 + 50000 * 0.15 +
         PRODUCTIVITY_GAIN_PCT / 100 * SALARY_PER_EMPLOYEE * NUM_EMPLOYEES⟩ :=
  computeCategoryBenefit_spec.1 "Telecom Services" 50000 0.35 0.15
    (by simp [lookupCategory, CATEGORY_PARAMS, List.find?]) (by norm_num)

/-- C7: an absent category key deterministically produces the
configuration-error value carrying the invalid key (the `KeyError`),
never a default rate pair silently applied. -/
theorem computeCategoryBenefit_unknown (category : String) (annual_spend : ℚ)
    (h : lookupCategory category = none) :
    computeCategoryBenefit category annual_spend = Except.error category ∧
    ∀ b, computeCategoryBenefit category annual_spend ≠ Except.ok b := by
  have h1 : computeCategoryBenefit category annual_spend = Except.error category := by
    simp only [computeCategoryBenefit, h]
  refine ⟨h1, fun b hb => ?_⟩
  rw [h1] at hb
  exact Except.noConfusion hb

/-- Witness for C7 at the absent key "Office Furniture". -/
theorem computeCategoryBenefit_unknown_witness :
    computeCategoryBenefit "Office Furniture" 100000 = Except.error "Office Furniture" ∧
    computeCategoryBenefit "Office Furniture" 100000 ≠ Except.ok ⟨0, 0, 0, 0⟩ := by
  have h := computeCategoryBenefit_unknown "Office Furniture" 100000
    (by simp [lookupCategory, CATEGORY_PARAMS, List.find?])
  exact ⟨h.1, h.2 ⟨0, 0, 0, 0⟩⟩

/-- Counterexample to C5: at cost 0 the ROI computation of
`computeDiscountedScenario` is the raised `ZeroDivisionError` (an error
reaching the caller), not a not-a-number sentinel value. -/
theorem roi_zero_cost_is_error :
    (computeDiscountedScenario 500 0 (1 / 10) 3).roiValue =
      Except.error "ZeroDivisionError" := rfl

/-- C5 (amended): ROI% equals `(Σ cashFlow - cost) / cost * 100` whenever
`cost ≠ 0`; when `cost = 0` the division by zero raises
`ZeroDivisionError` — an error, not a not-a-number sentinel. -/
theorem computeDiscountedScenario_roi (annualBenefit cost r : ℚ) (n : ℕ) :
    (cost ≠ 0 → (computeDiscountedScenario annualBenefit cost r n).roiValue =
      Except.ok (((computeDiscountedScenario annualBenefit cost r n).cashFlows.sum - cost)
        / cost * 100)) ∧
    (cost = 0 → (computeDiscountedScenario annualBenefit cost r n).roiValue =
      Except.error "ZeroDivisionError") := by
  constructor
  · intro h
    show roiPct (List.replicate n (annualBenefit - cost)) cost = _
    rw [roiPct, if_neg h]
    rfl
  · intro h
    show roiPct (List.replicate n (annualBenefit - cost)) cost = _
    rw [roiPct, if_pos h]

/-- Witness for the amended C5 at benefit 660,000, cost 100,000. -/
theorem computeDiscountedScenario_roi_witness :
    (computeDiscountedScenario 660000 100000 (1 / 10) 3).roiValue =
      Except.ok (((computeDiscountedScenario 660000 100000 (1 / 10) 3).cashFlows.sum - 100000)
        / 100000 * 100) :=
  (computeDiscountedScenario_roi 660000 100000 (1 / 10) 3).1 (by norm_num)

end TreuRoi
